import Mathlib

/-!
Shallow embedding of the Deep-Research-Agents repository.

The FastAPI backend lives in deep-research-ui/backend/main.py with its
Pydantic schemas in deep-research-ui/backend/models.py; the CLI
orchestrator lives in src/main.py.  Route handlers are translated as pure
Lean functions over explicit inputs: the module-level globals
(search_manager, memory_manager, citation_manager, agents,
response_time_history) become parameters, manager objects become records
of functions, a Python call that may raise becomes a value of
Except String, and an HTTP outcome becomes a value of HttpResult.
Handlers whose claims speak about which manager calls happen additionally
return the list of manager-method names they invoked, in call order.
-/

namespace DeepResearchSpec

/-- Outcome of a request handler: a successful payload, or an
HTTPException carrying a status code and a detail string. -/
inductive HttpResult (α : Type) where
  | ok (val : α)
  | err (status : Nat) (detail : String)
deriving DecidableEq

/-- Models Python str(e) for a starlette HTTPException, which renders as
"status: detail".  Used where a handler catch-all turns a caught
HTTPException into the detail of a new 500 error. -/
def excStr (status : Nat) (detail : String) : String :=
  toString status ++ ": " ++ detail

/-- Python list slicing l[start:stop] for 0 <= start <= stop. -/
def pySlice {α : Type} (l : List α) (start stop : Nat) : List α :=
  (l.drop start).take (stop - start)

/-! ## Agents (main.py: agents global, list_agents, get_agent) -/

/-- An agent object as the handlers see it: getattr with a default is
modelled by an optional field.  (main.py lines 243-251 read name,
description and plugins off the agent with getattr defaults.) -/
structure AgentObj where
  name : Option String
  description : Option String
  plugins : Option (List String)
deriving DecidableEq

/-- models.py AgentInfo restricted to the fields the handlers populate;
status is always the string "idle" (a placeholder in the code). -/
structure AgentInfo where
  id : String
  name : String
  description : String
  status : String
  plugins : List String
deriving DecidableEq

/-- The AgentInfo built for one (agent_id, agent) pair of the agents dict
(main.py lines 244-251 and 336-343). -/
def mkAgentInfo (agent_id : String) (a : AgentObj) : AgentInfo :=
  { id := agent_id
    name := a.name.getD agent_id
    description := a.description.getD "No description available"
    status := "idle"
    plugins := a.plugins.getD [] }

/-- models.py AgentListResponse, pagination fields included. -/
structure AgentListResponse where
  agents : List AgentInfo
  total : Nat
  page : Nat
  page_size : Nat
  total_pages : Nat
  has_next : Bool
  has_prev : Bool
deriving DecidableEq

/-- The filtered agent list built by the loop of list_agents (main.py
lines 242-254): every dict entry becomes an AgentInfo, kept when the
status filter is absent or matches. -/
def agent_info_list (ags : List (String × AgentObj)) (statusF : Option String) :
    List AgentInfo :=
  (ags.map (fun p => mkAgentInfo p.1 p.2)).filter (fun ai =>
    match statusF with
    | none => true
    | some s => ai.status == s)

/-- Pagination tail of list_agents (main.py lines 256-270): start and end
indices, the slice agent_list[start:end], and the response record.  Note
end is start + page_size with no clamping. -/
def list_agents_core (ags : List (String × AgentObj)) (page page_size : Nat)
    (statusF : Option String) : AgentListResponse :=
  let agent_list := agent_info_list ags statusF
  let total := agent_list.length
  let start := (page - 1) * page_size
  let stop := start + page_size
  { agents := pySlice agent_list start stop
    total := total
    page := page
    page_size := page_size
    total_pages := (total + page_size - 1) / page_size
    has_next := decide (stop < total)
    has_prev := decide (0 < start) }

/-- GET /api/v1/agents (main.py lines 220-270).  Python "if not agents"
is true both for None and for an empty dict; the trace records whether
the agents dict was iterated. -/
def list_agents (agents : Option (List (String × AgentObj))) (page page_size : Nat)
    (statusF : Option String) : HttpResult AgentListResponse × List String :=
  match agents with
  | none => (.err 503 "Agents not initialized", [])
  | some ags =>
    if ags.isEmpty then (.err 503 "Agents not initialized", [])
    else (.ok (list_agents_core ags page page_size statusF), ["agents.items"])

/-- GET /api/v1/agents/agent_id (main.py lines 329-343): 404 when the
agents dict is falsy or the id is not a key. -/
def get_agent (agents : Option (List (String × AgentObj))) (agent_id : String) :
    HttpResult AgentInfo :=
  match agents with
  | none => .err 404 "Agent not found"
  | some ags =>
    if ags.isEmpty then .err 404 "Agent not found"
    else
      match ags.find? (fun p => p.1 == agent_id) with
      | none => .err 404 "Agent not found"
      | some p => .ok (mkAgentInfo p.1 p.2)

/-! ## Search (models.py SearchQuery; main.py search_documents) -/

/-- models.py SearchQuery: the request body fields the handler uses.
The schema constraints (query 1..1000 chars, max_results 1..100) are kept
separately in validate_search_query; provider and temperature enums are
modelled as optional strings. -/
structure SearchQuery where
  query : String
  document_type : Option String
  provider : Option String
  max_results : Int
  include_web : Bool
deriving DecidableEq

/-- Schema validation FastAPI performs on a POST /api/v1/search body
before the handler runs, from the Field constraints of models.py lines
115-123: query min_length 1 and max_length 1000, max_results ge 1 le 100. -/
def validate_search_query (b : SearchQuery) : Bool :=
  decide (1 ≤ b.query.length) && decide (b.query.length ≤ 1000) &&
  decide (1 ≤ b.max_results) && decide (b.max_results ≤ 100)

/-- One raw provider result dict; result.get with a default becomes an
optional field. -/
structure RawResult where
  content_text : Option String
  document_title : Option String
  score : Option ℚ
deriving DecidableEq

/-- The SearchManager facade: search_multi_provider either returns a dict
of provider results or raises (Except.error carries str(e)). -/
structure SearchManager where
  search_multi_provider : SearchQuery → Except String (List (String × List RawResult))

/-- One transformed search result (main.py lines 395-404). -/
structure SearchResultM where
  id : String
  content : String
  title : String
  source : String
  document_type : Option String
  score : ℚ
deriving DecidableEq

/-- models.py SearchResponse restricted to the fields the handler sets
from its inputs (query_id and execution_time are a fresh uuid and a wall
clock reading, outside the embedding). -/
structure SearchResponse where
  query : String
  results : List SearchResultM
  total_results : Nat
  provider : String
deriving DecidableEq

/-- The result-conversion loop of search_documents (main.py lines
388-406): per provider, enumerate the results and keep those with index
below max_results. -/
def transform_results (req : SearchQuery) (rs : List (String × List RawResult)) :
    List SearchResultM :=
  rs.flatMap (fun pr =>
    (pr.2.enum.filter (fun ir => (ir.1 : Int) < req.max_results)).map (fun ir =>
      { id := pr.1 ++ "_" ++ toString ir.1
        content := ir.2.content_text.getD ""
        title := ir.2.document_title.getD "Unknown"
        source := pr.1
        document_type := req.document_type
        score := ir.2.score.getD 0 }))

/-- POST /api/v1/search handler body (main.py lines 347-420): 503 when
search_manager is None, otherwise call search_multi_provider inside a
try whose except maps any exception e to 500 "Search failed: str(e)". -/
def search_documents (sm : Option SearchManager) (req : SearchQuery) :
    HttpResult SearchResponse × List String :=
  match sm with
  | none => (.err 503 "Search service not available", [])
  | some m =>
    match m.search_multi_provider req with
    | .error e => (.err 500 ("Search failed: " ++ e), ["search_multi_provider"])
    | .ok rs =>
      let srs := transform_results req rs
      (.ok { query := req.query
             results := srs
             total_results := srs.length
             provider := req.provider.getD "azure" }, ["search_multi_provider"])

/-- POST /api/v1/search as routed by FastAPI: schema validation first
(422 before the handler and hence before any manager call), then the
handler. -/
def search_route (sm : Option SearchManager) (b : SearchQuery) :
    HttpResult SearchResponse × List String :=
  if validate_search_query b then search_documents sm b
  else (.err 422 "Unprocessable Entity", [])

/-! ## Memory (models.py MemoryEntryCreate; main.py store_memory,
search_memory) -/

/-- models.py MemoryEntryCreate; enum fields as strings. -/
structure MemoryEntryCreate where
  content : String
  entry_type : String
  source : String
  memory_type : String
deriving DecidableEq

/-- Schema validation for POST /api/v1/memory, from models.py lines
171-178: content min_length 1 max_length 10000, source min_length 1
max_length 100. -/
def validate_memory_entry_create (b : MemoryEntryCreate) : Bool :=
  decide (1 ≤ b.content.length) && decide (b.content.length ≤ 10000) &&
  decide (1 ≤ b.source.length) && decide (b.source.length ≤ 100)

/-- Python truthiness of an optional string parameter: None and "" are
falsy.  Used for the entry_type/source list arguments built at main.py
lines 531-532. -/
def truthyOpt (o : Option String) : Option (List String) :=
  match o with
  | none => none
  | some s => if s == "" then none else some [s]

/-- The MemoryManager facade: store_memory returns an entry id or
raises; search_memory takes query, max_results and the optional
entry_types/sources filters and returns raw result strings or raises. -/
structure MemoryManager where
  store_memory : MemoryEntryCreate → Except String String
  search_memory : String → Nat → Option (List String) → Option (List String) →
    Except String (List String)

/-- models.py MemoryEntry restricted to the fields the store handler
copies from the request (timestamps and relevance are wall-clock /
absent). -/
structure MemoryEntryResp where
  id : String
  content : String
  entry_type : String
  source : String
  memory_type : String
deriving DecidableEq

/-- POST /api/v1/memory handler body (main.py lines 468-510): 503 when
memory_manager is None; otherwise store, then fetch back with
search_memory(content, 1); an empty fetch raises HTTPException(500)
inside the try, which the catch-all except rewraps as
500 "Memory storage failed: str(e)". -/
def store_memory (mm : Option MemoryManager) (req : MemoryEntryCreate) :
    HttpResult MemoryEntryResp × List String :=
  match mm with
  | none => (.err 503 "Memory service not available", [])
  | some m =>
    match m.store_memory req with
    | .error e => (.err 500 ("Memory storage failed: " ++ e), ["store_memory"])
    | .ok entry_id =>
      match m.search_memory req.content 1 none none with
      | .error e =>
        (.err 500 ("Memory storage failed: " ++ e), ["store_memory", "search_memory"])
      | .ok rs =>
        if rs.isEmpty then
          (.err 500 ("Memory storage failed: " ++ excStr 500 "Failed to retrieve stored memory"),
           ["store_memory", "search_memory"])
        else
          (.ok { id := entry_id
                 content := req.content
                 entry_type := req.entry_type
                 source := req.source
                 memory_type := req.memory_type },
           ["store_memory", "search_memory"])

/-- POST /api/v1/memory as routed: schema validation (422) before the
handler. -/
def memory_route (mm : Option MemoryManager) (b : MemoryEntryCreate) :
    HttpResult MemoryEntryResp × List String :=
  if validate_memory_entry_create b then store_memory mm b
  else (.err 422 "Unprocessable Entity", [])

/-- models.py MemoryListResponse; entries reduced to the raw content
strings (the handler wraps each raw result with a fresh uuid and fixed
metadata). -/
structure MemoryListResponse where
  entries : List String
  total : Nat
  page : Nat
  page_size : Nat
  total_pages : Nat
  has_next : Bool
  has_prev : Bool
deriving DecidableEq

/-- GET /api/v1/memory handler (main.py lines 513-571): 503 when
memory_manager is None; search_memory is called with max_results =
page_size * page; an exception e becomes 500 "Memory search failed:
str(e)"; otherwise the results are paginated with
end = min(start + page_size, total). -/
def search_memory_route (mm : Option MemoryManager) (query : String)
    (page page_size : Nat) (entry_type source : Option String) :
    HttpResult MemoryListResponse :=
  match mm with
  | none => .err 503 "Memory service not available"
  | some m =>
    match m.search_memory query (page_size * page) (truthyOpt entry_type)
        (truthyOpt source) with
    | .error e => .err 500 ("Memory search failed: " ++ e)
    | .ok results =>
      let total := results.length
      let start := (page - 1) * page_size
      let stop := min (start + page_size) total
      .ok { entries := pySlice results start stop
            total := total
            page := page
            page_size := page_size
            total_pages := (total + page_size - 1) / page_size
            has_next := decide (stop < total)
            has_prev := decide (0 < start) }

/-! ## Citations (models.py Citation models; main.py citation handlers) -/

/-- A citation object as stored by the CitationManager (the lib facade),
with the fields the handlers read. -/
structure CitObj where
  id : String
  content : String
  source_title : String
  case_number : Option String
  page_number : Option Nat
  confidence : ℚ
  tags : List String
  created_at : Nat
  updated_at : Nat
deriving DecidableEq

/-- models.py CitationCreate, tags and metadata dropped to what the
handler forwards. -/
structure CitationCreate where
  content : String
  source_title : String
  case_number : Option String
  page_number : Option Nat
  confidence : ℚ
  tags : List String
deriving DecidableEq

/-- models.py CitationUpdate: all fields optional. -/
structure CitationUpdate where
  content : Option String
  source_title : Option String
  case_number : Option String
  page_number : Option Nat
  confidence : Option ℚ
deriving DecidableEq

/-- The CitationManager facade used by the handlers: create may raise;
read returns the citation or None; update and delete report success as a
bool; list_citations applies the case-number filter internally. -/
structure CitationManager where
  create_citation : CitationCreate → Except String String
  read_citation : String → Option CitObj
  update_citation : String → CitationUpdate → Bool
  delete_citation : String → Bool
  list_citations : Option String → List CitObj

/-- models.py Citation restricted to the fields the handlers populate;
the handlers always send tags = [] (a noted gap in the code). -/
structure Citation where
  id : String
  content : String
  source_title : String
  case_number : Option String
  page_number : Option Nat
  confidence : ℚ
  tags : List String
deriving DecidableEq

/-- The Citation response built from a stored citation (main.py lines
714-725 and 744-755). -/
def citationOf (citation_id : String) (c : CitObj) : Citation :=
  { id := citation_id
    content := c.content
    source_title := c.source_title
    case_number := c.case_number
    page_number := c.page_number
    confidence := c.confidence
    tags := [] }

/-- POST /api/v1/citations (main.py lines 595-638): 503 when the manager
is None; create then read back; a failed read-back raises
HTTPException(500) inside the try, rewrapped by the catch-all as
500 "Citation creation failed: str(e)". -/
def create_citation (cm : Option CitationManager) (req : CitationCreate) :
    HttpResult Citation × List String :=
  match cm with
  | none => (.err 503 "Citation service not available", [])
  | some m =>
    match m.create_citation req with
    | .error e => (.err 500 ("Citation creation failed: " ++ e), ["create_citation"])
    | .ok cid =>
      match m.read_citation cid with
      | some c => (.ok (citationOf cid c), ["create_citation", "read_citation"])
      | none =>
        (.err 500 ("Citation creation failed: " ++
           excStr 500 "Failed to retrieve created citation"),
         ["create_citation", "read_citation"])

/-- GET /api/v1/citations/citation_id (main.py lines 704-725): the 404
for a missing citation is raised outside any try block, so it reaches
the client as a 404. -/
def get_citation (cm : Option CitationManager) (citation_id : String) :
    HttpResult Citation :=
  match cm with
  | none => .err 503 "Citation service not available"
  | some m =>
    match m.read_citation citation_id with
    | none => .err 404 "Citation not found"
    | some c => .ok (citationOf citation_id c)

/-- PUT /api/v1/citations/citation_id (main.py lines 728-760).  The body
runs inside a try; raising HTTPException(404, "Citation not found") (or
the 500 for a failed read-back) inside it is caught by
"except Exception as e", which re-raises
HTTPException(500, "Citation update failed: str(e)"). -/
def update_citation (cm : Option CitationManager) (citation_id : String)
    (upd : CitationUpdate) : HttpResult Citation :=
  match cm with
  | none => .err 503 "Citation service not available"
  | some m =>
    let body : HttpResult Citation :=
      if m.update_citation citation_id upd then
        match m.read_citation citation_id with
        | some c => .ok (citationOf citation_id c)
        | none => .err 500 "Failed to retrieve updated citation"
      else .err 404 "Citation not found"
    match body with
    | .ok c => .ok c
    | .err s d => .err 500 ("Citation update failed: " ++ excStr s d)

/-- DELETE /api/v1/citations/citation_id (main.py lines 763-777): same
try/except pattern as update, so the inner 404 surfaces as a 500. -/
def delete_citation (cm : Option CitationManager) (citation_id : String) :
    HttpResult String :=
  match cm with
  | none => .err 503 "Citation service not available"
  | some m =>
    let body : HttpResult String :=
      if m.delete_citation citation_id then
        .ok ("Citation " ++ citation_id ++ " deleted successfully")
      else .err 404 "Citation not found"
    match body with
    | .ok msg => .ok msg
    | .err s d => .err 500 ("Citation deletion failed: " ++ excStr s d)

/-- Substring test needle in hay on the lowered strings, as in
"source_title.lower() not in citation.source_title.lower()". -/
def strContainsLower (hay needle : String) : Bool :=
  decide (needle.toLower.data <:+: hay.toLower.data)

/-- tag_list = tags.split(",") if tags else [] (main.py line 658);
None and "" are falsy. -/
def tag_list_of (tags : Option String) : List String :=
  match tags with
  | none => []
  | some s => if s == "" then [] else s.splitOn ","

/-- The per-citation filter of list_citations (main.py lines 660-665): a
citation is kept unless a truthy source_title fails the substring test,
or a nonempty tag list has no tag among the citation tags. -/
def citation_passes (source_title : Option String) (tag_list : List String)
    (c : CitObj) : Bool :=
  (match source_title with
   | none => true
   | some st => st == "" || strContainsLower c.source_title st) &&
  (tag_list.isEmpty || tag_list.any (fun t => c.tags.contains t))

/-- The filtered citation list of list_citations: the manager applies
the case-number filter, the handler the source-title and tag filters. -/
def citation_filtered (m : CitationManager)
    (case_number source_title tags : Option String) : List CitObj :=
  (m.list_citations case_number).filter
    (citation_passes source_title (tag_list_of tags))

/-- models.py CitationListResponse with pagination fields. -/
structure CitationListResponse where
  citations : List Citation
  total : Nat
  page : Nat
  page_size : Nat
  total_pages : Nat
  has_next : Bool
  has_prev : Bool
deriving DecidableEq

/-- Pagination tail of list_citations (main.py lines 667-698); end is
min(start + page_size, total) here. -/
def list_citations_core (m : CitationManager) (page page_size : Nat)
    (case_number source_title tags : Option String) : CitationListResponse :=
  let filtered := citation_filtered m case_number source_title tags
  let total := filtered.length
  let start := (page - 1) * page_size
  let stop := min (start + page_size) total
  { citations := (pySlice filtered start stop).map (fun c => citationOf c.id c)
    total := total
    page := page
    page_size := page_size
    total_pages := (total + page_size - 1) / page_size
    has_next := decide (stop < total)
    has_prev := decide (0 < start) }

/-- GET /api/v1/citations (main.py lines 641-701): 503 when the manager
is None, otherwise filter and paginate (nothing in the body raises, so
the surrounding try is inert). -/
def list_citations (cm : Option CitationManager) (page page_size : Nat)
    (case_number source_title tags : Option String) :
    HttpResult CitationListResponse :=
  match cm with
  | none => .err 503 "Citation service not available"
  | some m => .ok (list_citations_core m page page_size case_number source_title tags)

/-! ## Research tasks (main.py lines 824-863) -/

/-- models.py ResearchTaskCreate restricted to the fields the handler
reads. -/
structure ResearchTaskCreate where
  query : String
  agents : Option (List String)
  temperature : String
  max_iterations : Nat
  include_web : Bool
deriving DecidableEq

/-- models.py ResearchTask restricted to the fields the handler sets
from its inputs (created_at is a wall clock reading). -/
structure ResearchTask where
  id : String
  query : String
  agents : List String
  temperature : String
  status : String
  progress : ℚ
deriving DecidableEq

/-- POST /api/v1/research (main.py lines 824-846).  The agents field is
Python "task_request.agents or list(agents.keys()) if agents else []",
which parses as: if the global agents dict is truthy, the requested list
when itself truthy, else the dict keys; otherwise the empty list.  The
uuid the handler mints is passed in as task_id.  Nothing is stored. -/
def create_research_task (agents : Option (List (String × AgentObj)))
    (task_id : String) (req : ResearchTaskCreate) : ResearchTask :=
  { id := task_id
    query := req.query
    agents :=
      match agents with
      | none => []
      | some ags =>
        if ags.isEmpty then []
        else
          match req.agents with
          | some l => if l.isEmpty then ags.map Prod.fst else l
          | none => ags.map Prod.fst
    temperature := req.temperature
    status := "created"
    progress := 0 }

/-- models.py ResearchTaskListResponse restricted to the fields the
handler sets. -/
structure ResearchTaskListResponse where
  tasks : List ResearchTask
  total : Nat
  page : Nat
  page_size : Nat
deriving DecidableEq

/-- GET /api/v1/research (main.py lines 849-857): a placeholder that
consults no storage and always answers an empty page. -/
def list_research_tasks (page page_size : Nat) (statusF : Option String) :
    ResearchTaskListResponse :=
  { tasks := [], total := 0, page := page, page_size := page_size }

/-- The module-level globals of backend/main.py, bundled so a handler
that ignores all state can be seen to do so. -/
structure Globals where
  search_manager : Option SearchManager
  memory_manager : Option MemoryManager
  citation_manager : Option CitationManager
  agents : Option (List (String × AgentObj))
  response_time_history : List ℚ

/-- GET /api/v1/research/task_id (main.py lines 860-863): always raises
HTTPException(501), whatever the stored state. -/
def get_research_task (g : Globals) (task_id : String) : HttpResult ResearchTask :=
  .err 501 "Research task management not yet implemented"

/-! ## Response time tracking (main.py lines 118-153) -/

/-- MAX_HISTORY_SIZE (main.py line 120). -/
def MAX_HISTORY_SIZE : Nat := 100

/-- The history update both branches of the track_response_time wrapper
perform (main.py lines 130-140): append the measured time, then pop the
front element when the length exceeds MAX_HISTORY_SIZE.  Times are
modelled as rationals (milliseconds). -/
def push_response_time (h : List ℚ) (t : ℚ) : List ℚ :=
  let h1 := h ++ [t]
  if MAX_HISTORY_SIZE < h1.length then h1.drop 1 else h1

/-- The track_response_time wrapper (main.py lines 123-143) applied to a
finished handler call: res is the handler outcome (a result or a raised
exception), t the measured elapsed time.  The history is updated the same
way on both paths and the outcome is passed through (re-raised). -/
def track_response_time {E A : Type} (h : List ℚ) (t : ℚ) (res : Except E A) :
    Except E A × List ℚ :=
  match res with
  | .ok a => (.ok a, push_response_time h t)
  | .error e => (.error e, push_response_time h t)

/-- Python h[-n:]: the last at most n elements. -/
def lastN (n : Nat) (h : List ℚ) : List ℚ :=
  h.drop (h.length - n)

/-- Sum of a list of rationals, as the Python sum builtin folds. -/
def ratSum (l : List ℚ) : ℚ :=
  l.foldl (· + ·) 0

/-- Round-half-to-even to an integer, the tie rule of the Python round
builtin (on the exact value; binary float representation error is outside
the embedding). -/
def roundHalfEven (q : ℚ) : ℤ :=
  let f : ℤ := ⌊q⌋
  let r : ℚ := q - f
  if r < 1/2 then f
  else if 1/2 < r then f + 1
  else if f % 2 = 0 then f else f + 1

/-- Python round(x, 2). -/
def round2 (q : ℚ) : ℚ :=
  (roundHalfEven (q * 100) : ℚ) / 100

/-- get_average_response_time (main.py lines 146-153): 250.0 when the
history is empty, else the mean of the last 20 entries rounded to two
decimals. -/
def get_average_response_time (h : List ℚ) : ℚ :=
  if h.isEmpty then 250
  else
    let recent := lastN 20 h
    round2 (ratSum recent / (recent.length : ℚ))

/-! ## CLI orchestrator (src/main.py DeepResearchAgent) -/

/-- The external framework calls DeepResearchAgent makes, in the order
the claims speak about. -/
inductive SKEvent where
  | createEmbeddingClient
  | skMemoryPluginInit
  | createSharedWrapper
  | storeMemory (entry_type : String)
  | createAgents
  | constructOrchestration
  | runtimeStart
  | orchestrationInvoke
  | runtimeGetResult
  | printReport
deriving DecidableEq

/-- The fields of DeepResearchAgent that gate research(): whether
self.orchestration, self.runtime and self.sk_memory_plugin have been
assigned. -/
structure AgentSysState where
  orchestration : Bool
  runtime : Bool
  sk_memory_plugin : Bool
deriving DecidableEq

/-- The state right after DeepResearchAgent.__init__ (src/main.py lines
92-103): all three fields are None. -/
def freshAgentSys : AgentSysState :=
  { orchestration := false, runtime := false, sk_memory_plugin := false }

/-- DeepResearchAgent.initialize (src/main.py lines 105-174), embedded as
the final state plus the ordered trace of external framework calls:
create the embedding client (line 114), construct and initialize the SK
memory plugin (123-128), wrap it (131), store the session entry (137),
create the agents (145), construct the orchestration (156) and start the
runtime (167-168). -/
def agentSys_initialize_steps (s : AgentSysState) : AgentSysState × List SKEvent :=
  ({ orchestration := true, runtime := true, sk_memory_plugin := true },
   [SKEvent.createEmbeddingClient,
    SKEvent.skMemoryPluginInit,
    SKEvent.createSharedWrapper,
    SKEvent.storeMemory "session",
    SKEvent.createAgents,
    SKEvent.constructOrchestration,
    SKEvent.runtimeStart])

/-- DeepResearchAgent.research (src/main.py lines 176-240): a RuntimeError
when orchestration or runtime is unset; otherwise store the query when
the memory plugin exists, invoke the orchestration, await the result,
print the final report, store it when nonempty, and return it.  The
report the external orchestration produces is passed in as report. -/
def agentSys_research (s : AgentSysState) (query report : String) :
    Except String (String × List SKEvent) :=
  if s.orchestration = false ∨ s.runtime = false then
    .error "Agent system not initialized. Call initialize() first."
  else
    .ok (report,
      (if s.sk_memory_plugin then [SKEvent.storeMemory "query"] else []) ++
      [SKEvent.orchestrationInvoke, SKEvent.runtimeGetResult, SKEvent.printReport] ++
      (if s.sk_memory_plugin && !(report == "") then [SKEvent.storeMemory "report"] else []))

/-! ## WebSocket connection manager (spec section 5) -/

/-- Modelled from the spec: the WebSocket connection manager is not among
the files under src/ (spec sections 2 and 5 describe it: a simple list of
open connections with best-effort broadcast and removal on send failure).
Connections are identified by numbers. -/
structure ConnectionManager where
  active_connections : List Nat

/-- Modelled from the spec: accepting a connection appends it to the
list. -/
def ConnectionManager.connect (m : ConnectionManager) (c : Nat) : ConnectionManager :=
  { active_connections := m.active_connections ++ [c] }

/-- Modelled from the spec: a closed connection is removed from the
list. -/
def ConnectionManager.disconnect (m : ConnectionManager) (c : Nat) : ConnectionManager :=
  { active_connections := m.active_connections.erase c }

/-- Modelled from the spec: the broadcast loop walks the connection list,
attempts to send to each connection (send c = false models a raised send
error), and drops a connection from the list when sending to it failed.
Returns the kept connections and the attempted ones, in order. -/
def broadcastWalk (send : Nat → Bool) : List Nat → List Nat × List Nat
  | [] => ([], [])
  | c :: rest =>
    let r := broadcastWalk send rest
    (if send c then c :: r.1 else r.1, c :: r.2)

/-- Modelled from the spec: broadcast returns the manager with the failed
connections removed, together with the list of connections a send was
attempted on. -/
def ConnectionManager.broadcast (m : ConnectionManager) (send : Nat → Bool) :
    ConnectionManager × List Nat :=
  let r := broadcastWalk send m.active_connections
  ({ active_connections := r.1 }, r.2)

/-! ## Claim-side definitions (for the refinement-shaped claims) -/

/-- Follows the words of claim C3: the slice of the filtered items from
index (page-1)*page_size of length at most page_size. -/
def spec_page_slice {α : Type} (l : List α) (page page_size : Nat) : List α :=
  (l.drop ((page - 1) * page_size)).take page_size

/-- Follows the words of claim C3: ceiling(n / page_size) in the usual
integer form. -/
def spec_total_pages (n page_size : Nat) : Nat :=
  (n + page_size - 1) / page_size

/-- Follows the words of claim C9: the agents field would be the
requested agent list or, when omitted, all keys of the global agents
dict, empty if agents is uninitialized. -/
def claimed_task_agents (agents : Option (List (String × AgentObj)))
    (req : ResearchTaskCreate) : List String :=
  match req.agents with
  | some l => l
  | none =>
    match agents with
    | some ags => ags.map Prod.fst
    | none => []

/-! ## Concrete fixtures (for evaluations and witnesses) -/

/-- A sample agent object. -/
def agentA : AgentObj :=
  { name := some "Research Agent", description := some "Handles research tasks",
    plugins := some ["search"] }

/-- A second sample agent object, exercising the getattr defaults. -/
def agentB : AgentObj :=
  { name := none, description := none, plugins := none }

/-- A sample agents dict with two entries. -/
def demoAgents : List (String × AgentObj) :=
  [("agent1", agentA), ("agent2", agentB)]

/-- A citation manager holding nothing: reads miss and updates and
deletes report failure. -/
def cmMissing : CitationManager :=
  { create_citation := fun _ => .ok "cite-1"
    read_citation := fun _ => none
    update_citation := fun _ _ => false
    delete_citation := fun _ => false
    list_citations := fun _ => [] }

/-- A sample stored citation. -/
def citA : CitObj :=
  { id := "cite-a", content := "Quoted text", source_title := "Source Alpha",
    case_number := some "CASE-001", page_number := some 3, confidence := 9/10,
    tags := ["law"], created_at := 0, updated_at := 0 }

/-- A second sample stored citation. -/
def citB : CitObj :=
  { id := "cite-b", content := "Other text", source_title := "Source Beta",
    case_number := none, page_number := none, confidence := 1/2,
    tags := [], created_at := 1, updated_at := 2 }

/-- A citation manager listing two citations. -/
def cmTwo : CitationManager :=
  { create_citation := fun _ => .ok "cite-a"
    read_citation := fun cid => if cid == "cite-a" then some citA else none
    update_citation := fun cid _ => cid == "cite-a"
    delete_citation := fun cid => cid == "cite-a"
    list_citations := fun _ => [citA, citB] }

/-- A search manager whose search_multi_provider always raises. -/
def smThrow (msg : String) : SearchManager :=
  { search_multi_provider := fun _ => .error msg }

/-- A memory manager whose calls always raise. -/
def mmThrow (msg : String) : MemoryManager :=
  { store_memory := fun _ => .error msg
    search_memory := fun _ _ _ _ => .error msg }

/-- A syntactically well-typed search body violating the query
min_length constraint. -/
def sqEmptyQuery : SearchQuery :=
  { query := "", document_type := none, provider := none,
    max_results := 10, include_web := true }

/-- A memory body violating the content min_length constraint. -/
def meEmptyContent : MemoryEntryCreate :=
  { content := "", entry_type := "general", source := "system",
    memory_type := "session" }

/-- A research-task request naming one agent. -/
def rtReqA : ResearchTaskCreate :=
  { query := "q", agents := some ["agent1"], temperature := "balanced",
    max_iterations := 3, include_web := true }

/-! ## Helper lemmas -/

/-- A product with a positive right factor is positive exactly when the
left factor is. -/
theorem start_pos_iff (page ps : Nat) (hps : 1 ≤ ps) :
    0 < (page - 1) * ps ↔ 1 < page := by
  rw [Nat.pos_iff_ne_zero, Ne, Nat.mul_eq_zero]
  omega

/-- The Python slice l[start : min (start+ps) (len l)] is the same list
as dropping start then taking ps. -/
theorem pySlice_min_eq {α : Type} (l : List α) (start ps : Nat) :
    pySlice l start (min (start + ps) l.length) = (l.drop start).take ps := by
  unfold pySlice
  apply List.take_eq_take.mpr
  rw [List.length_drop]
  omega

/-- The Python slice l[start : start+ps] is the same list as dropping
start then taking ps. -/
theorem pySlice_plain_eq {α : Type} (l : List α) (start ps : Nat) :
    pySlice l start (start + ps) = (l.drop start).take ps := by
  unfold pySlice
  rw [Nat.add_sub_cancel_left]

/-- The broadcast loop attempts every connection and keeps exactly the
ones whose send succeeded. -/
theorem broadcastWalk_spec (send : Nat → Bool) (l : List Nat) :
    broadcastWalk send l = (l.filter send, l) := by
  induction l with
  | nil => rfl
  | cons c rest ih => simp [broadcastWalk, ih, List.filter_cons]

/-- push_response_time keeps the history within MAX_HISTORY_SIZE. -/
theorem push_response_time_le (h : List ℚ) (t : ℚ) (hh : h.length ≤ 100) :
    (push_response_time h t).length ≤ 100 := by
  have he : push_response_time h t =
      if 100 < (h ++ [t]).length then (h ++ [t]).drop 1 else h ++ [t] := rfl
  rw [he]
  split <;>
    simp_all only [List.length_drop, List.length_append, List.length_cons,
      List.length_nil, Nat.not_lt] <;>
    omega

/-- Folding push_response_time preserves the size bound. -/
theorem foldl_push_le (ts : List ℚ) (h : List ℚ) (hh : h.length ≤ 100) :
    (ts.foldl push_response_time h).length ≤ 100 := by
  induction ts generalizing h with
  | nil => simpa using hh
  | cons t rest ih => exact ih _ (push_response_time_le h t hh)

/-! ## Claim theorems -/

/-- C1: for requests naming a missing entity the code answers 404 on the
two GET routes, but on PUT and DELETE /api/v1/citations the
HTTPException(404) raised inside the try block is swallowed by the
catch-all except and resurfaces as a 500, contradicting the claim (and
the 404 the handler itself raises). -/
theorem c1_missing_entity_eval :
    get_agent (some demoAgents) "ghost" = .err 404 "Agent not found" ∧
    get_citation (some cmMissing) "c9" = .err 404 "Citation not found" ∧
    update_citation (some cmMissing) "c9"
      { content := none, source_title := none, case_number := none,
        page_number := none, confidence := none } =
      .err 500 "Citation update failed: 404: Citation not found" ∧
    delete_citation (some cmMissing) "c9" =
      .err 500 "Citation deletion failed: 404: Citation not found" := by
  refine ⟨by decide, rfl, rfl, rfl⟩

/-- C2: with the relevant global uninitialized (None), GET /api/v1/agents,
POST /api/v1/search, POST /api/v1/memory and POST /api/v1/citations all
answer 503 and make no manager call (empty call trace). -/
theorem c2_uninitialized_503 (page page_size : Nat) (statusF : Option String)
    (sreq : SearchQuery) (mreq : MemoryEntryCreate) (creq : CitationCreate) :
    list_agents none page page_size statusF = (.err 503 "Agents not initialized", []) ∧
    search_documents none sreq = (.err 503 "Search service not available", []) ∧
    store_memory none mreq = (.err 503 "Memory service not available", []) ∧
    create_citation none creq = (.err 503 "Citation service not available", []) :=
  ⟨rfl, rfl, rfl, rfl⟩

/-- C4: GET /api/v1/research/task_id answers 501 for every task id and
every stored state. -/
theorem c4_research_detail_unimplemented (g : Globals) (task_id : String) :
    get_research_task g task_id =
      .err 501 "Research task management not yet implemented" :=
  rfl

/-- C8: the connection manager keeps a list of open connections; connect
appends to it, and broadcast attempts a send to every listed connection
(best effort) and removes exactly the connections whose send failed.
The manager itself is modelled from the spec, its code not being among
the source files. -/
theorem c8_broadcast_best_effort (m : ConnectionManager) (send : Nat → Bool) :
    (∀ c, (m.connect c).active_connections = m.active_connections ++ [c]) ∧
    (m.broadcast send).2 = m.active_connections ∧
    ((m.broadcast send).1).active_connections = m.active_connections.filter send := by
  refine ⟨fun c => rfl, ?_, ?_⟩ <;>
    simp [ConnectionManager.broadcast, broadcastWalk_spec]

/-- C3: for GET /api/v1/agents and GET /api/v1/citations against an
initialized backend, writing n for the number of items passing the
request filters: total = n, total_pages = ceiling(n / page_size), the
returned list is the slice of the filtered items from index
(page-1)*page_size of length at most page_size (for citations, mapped to
the response shape), has_next holds exactly when items remain after the
slice and has_prev exactly when page > 1. -/
theorem c3_pagination_contract (page page_size : Nat)
    (hp : 1 ≤ page) (hps : 1 ≤ page_size) (hps2 : page_size ≤ 100)
    (ags : List (String × AgentObj)) (hne : ags.isEmpty = false)
    (statusF : Option String) (m : CitationManager)
    (case_number source_title tags : Option String) :
    (list_agents (some ags) page page_size statusF =
       (.ok (list_agents_core ags page page_size statusF), ["agents.items"]) ∧
     (list_agents_core ags page page_size statusF).total =
       (agent_info_list ags statusF).length ∧
     (list_agents_core ags page page_size statusF).agents =
       spec_page_slice (agent_info_list ags statusF) page page_size ∧
     (list_agents_core ags page page_size statusF).total_pages =
       (agent_info_list ags statusF).length ⌈/⌉ page_size ∧
     ((list_agents_core ags page page_size statusF).has_next = true ↔
       (page - 1) * page_size + page_size < (agent_info_list ags statusF).length) ∧
     ((list_agents_core ags page page_size statusF).has_prev = true ↔ 1 < page)) ∧
    (list_citations (some m) page page_size case_number source_title tags =
       .ok (list_citations_core m page page_size case_number source_title tags) ∧
     (list_citations_core m page page_size case_number source_title tags).total =
       (citation_filtered m case_number source_title tags).length ∧
     (list_citations_core m page page_size case_number source_title tags).citations =
       (spec_page_slice (citation_filtered m case_number source_title tags)
          page page_size).map (fun c => citationOf c.id c) ∧
     (list_citations_core m page page_size case_number source_title tags).total_pages =
       (citation_filtered m case_number source_title tags).length ⌈/⌉ page_size ∧
     ((list_citations_core m page page_size case_number source_title tags).has_next
        = true ↔
       (page - 1) * page_size + page_size <
         (citation_filtered m case_number source_title tags).length) ∧
     ((list_citations_core m page page_size case_number source_title tags).has_prev
        = true ↔ 1 < page)) := by
  refine ⟨⟨?_, rfl, ?_, ?_, ?_, ?_⟩, ⟨rfl, rfl, ?_, ?_, ?_, ?_⟩⟩
  · simp [list_agents, hne]
  · simp only [list_agents_core, spec_page_slice]
    exact pySlice_plain_eq _ _ _
  · rw [Nat.ceilDiv_eq_add_pred_div]; rfl
  · simp only [list_agents_core, decide_eq_true_eq]
  · simp only [list_agents_core, decide_eq_true_eq]
    exact start_pos_iff page page_size hps
  · simp only [list_citations_core, spec_page_slice]
    rw [pySlice_min_eq]
  · rw [Nat.ceilDiv_eq_add_pred_div]; rfl
  · simp only [list_citations_core, decide_eq_true_eq]
    omega
  · simp only [list_citations_core, decide_eq_true_eq]
    exact start_pos_iff page page_size hps

/-- Witness for C3 at page 2, page_size 1, two agents and two stored
citations. -/
theorem c3_pagination_contract_witness :
    (1 ≤ 2 ∧ 1 ≤ 1 ∧ 1 ≤ 100 ∧ demoAgents.isEmpty = false) ∧
    list_agents (some demoAgents) 2 1 none =
      (.ok (list_agents_core demoAgents 2 1 none), ["agents.items"]) ∧
    ((list_agents_core demoAgents 2 1 none).has_prev = true ↔ 1 < 2) ∧
    (list_citations_core cmTwo 2 1 none none none).citations =
      (spec_page_slice (citation_filtered cmTwo none none none) 2 1).map
        (fun c => citationOf c.id c) := by
  have h := c3_pagination_contract 2 1 (by decide) (by decide) (by decide)
    demoAgents (by decide) none cmTwo none none none
  exact ⟨⟨by decide, by decide, by decide, by decide⟩,
    h.1.1, h.1.2.2.2.2.2, h.2.2.2.1⟩

/-- C5: a POST /api/v1/search body violating the SearchQuery field
constraints (query empty or over 1000 characters, or max_results outside
1..100), and a POST /api/v1/memory body violating MemoryEntryCreate
(content empty or over 10000 characters), are rejected with 422 before
the handler runs, so no manager call is made. -/
theorem c5_schema_validation_422 (sm : Option SearchManager)
    (mm : Option MemoryManager) (sb : SearchQuery) (mb : MemoryEntryCreate)
    (hs : sb.query.length = 0 ∨ 1000 < sb.query.length ∨
          sb.max_results < 1 ∨ 100 < sb.max_results)
    (hm : mb.content.length = 0 ∨ 10000 < mb.content.length) :
    search_route sm sb = (.err 422 "Unprocessable Entity", []) ∧
    memory_route mm mb = (.err 422 "Unprocessable Entity", []) := by
  constructor
  · have hv : validate_search_query sb = false := by
      simp only [validate_search_query, Bool.and_eq_false_iff,
        decide_eq_false_iff_not, Nat.not_le, Int.not_le]
      omega
    simp [search_route, hv]
  · have hv : validate_memory_entry_create mb = false := by
      simp only [validate_memory_entry_create, Bool.and_eq_false_iff,
        decide_eq_false_iff_not, Nat.not_le]
      omega
    simp [memory_route, hv]

/-- Witness for C5: the empty query and the empty content are refused
with 422 and an empty call trace, with both managers present. -/
theorem c5_schema_validation_422_witness :
    (String.length "" = 0 ∨ 1000 < String.length "" ∨
       sqEmptyQuery.max_results < 1 ∨ 100 < sqEmptyQuery.max_results) ∧
    search_route (some (smThrow "boom")) sqEmptyQuery =
      (.err 422 "Unprocessable Entity", []) ∧
    memory_route (some (mmThrow "boom")) meEmptyContent =
      (.err 422 "Unprocessable Entity", []) := by
  have h := c5_schema_validation_422 (some (smThrow "boom"))
    (some (mmThrow "boom")) sqEmptyQuery meEmptyContent
    (Or.inl (by decide)) (Or.inl (by decide))
  exact ⟨Or.inl (by decide), h.1, h.2⟩

/-- C6: when the manager call raises, POST /api/v1/search answers 500
with a detail extending "Search failed" and GET /api/v1/memory answers
500 with a detail extending "Memory search failed". -/
theorem c6_exception_500 (m : SearchManager) (mm : MemoryManager)
    (req : SearchQuery) (q : String) (page page_size : Nat)
    (entry_type source : Option String) (e1 e2 : String)
    (h1 : m.search_multi_provider req = .error e1)
    (h2 : mm.search_memory q (page_size * page) (truthyOpt entry_type)
            (truthyOpt source) = .error e2) :
    (search_documents (some m) req =
       (.err 500 ("Search failed: " ++ e1), ["search_multi_provider"]) ∧
     "Search failed".data <+: ("Search failed: " ++ e1).data) ∧
    (search_memory_route (some mm) q page page_size entry_type source =
       .err 500 ("Memory search failed: " ++ e2) ∧
     "Memory search failed".data <+: ("Memory search failed: " ++ e2).data) := by
  refine ⟨⟨?_, ?_⟩, ?_, ?_⟩
  · simp [search_documents, h1]
  · rw [String.data_append]
    exact List.IsPrefix.trans (by decide) (List.prefix_append _ _)
  · simp [search_memory_route, h2]
  · rw [String.data_append]
    exact List.IsPrefix.trans (by decide) (List.prefix_append _ _)

/-- Witness for C6: throwing managers produce the two 500 responses. -/
theorem c6_exception_500_witness :
    (smThrow "boom").search_multi_provider sqEmptyQuery = .error "boom" ∧
    (mmThrow "kaput").search_memory "q" (20 * 1) (truthyOpt none) (truthyOpt none)
      = .error "kaput" ∧
    search_documents (some (smThrow "boom")) sqEmptyQuery =
      (.err 500 "Search failed: boom", ["search_multi_provider"]) ∧
    search_memory_route (some (mmThrow "kaput")) "q" 1 20 none none =
      .err 500 "Memory search failed: kaput" := by
  have h := c6_exception_500 (smThrow "boom") (mmThrow "kaput") sqEmptyQuery
    "q" 1 20 none none "boom" "kaput" rfl rfl
  exact ⟨rfl, rfl, h.1.1, h.2.1⟩

/-- C7: initialize() performs its external framework calls in the fixed
order embedding client, SK memory plugin, agents, orchestration, runtime
start (the claimed five-step sequence is an ordered sublist of the full
trace); after initialize() research succeeds, invokes the orchestration
and then prints and returns the report produced by the orchestration;
and on any state where orchestration or runtime is unset (in particular
a fresh instance) research raises instead, so nothing is invoked or
printed before all initialize() steps have completed. -/
theorem c7_orchestration_order :
    (agentSys_initialize_steps freshAgentSys).2 =
      [SKEvent.createEmbeddingClient, SKEvent.skMemoryPluginInit,
       SKEvent.createSharedWrapper, SKEvent.storeMemory "session",
       SKEvent.createAgents, SKEvent.constructOrchestration,
       SKEvent.runtimeStart] ∧
    List.Sublist
      [SKEvent.createEmbeddingClient, SKEvent.skMemoryPluginInit,
       SKEvent.createAgents, SKEvent.constructOrchestration, SKEvent.runtimeStart]
      (agentSys_initialize_steps freshAgentSys).2 ∧
    (∀ q r, agentSys_research (agentSys_initialize_steps freshAgentSys).1 q r =
       .ok (r, [SKEvent.storeMemory "query", SKEvent.orchestrationInvoke,
                SKEvent.runtimeGetResult, SKEvent.printReport] ++
               (if r == "" then [] else [SKEvent.storeMemory "report"]))) ∧
    (∀ s q r, s.orchestration = false ∨ s.runtime = false →
       agentSys_research s q r =
         .error "Agent system not initialized. Call initialize() first.") := by
  refine ⟨rfl, by decide, ?_, ?_⟩
  · intro q r
    simp only [agentSys_initialize_steps, agentSys_research]
    cases hr : r == "" <;> simp [hr]
  · intro s q r hs
    rcases hs with hs | hs <;> simp [agentSys_research, hs]

/-- Witness for C7: on the fresh state research raises; after the
initialize steps it returns the report with the invoke-then-print
trace. -/
theorem c7_orchestration_order_witness :
    (freshAgentSys.orchestration = false ∨ freshAgentSys.runtime = false) ∧
    agentSys_research freshAgentSys "q" "rep" =
      .error "Agent system not initialized. Call initialize() first." ∧
    agentSys_research (agentSys_initialize_steps freshAgentSys).1 "q" "rep" =
      .ok ("rep", [SKEvent.storeMemory "query", SKEvent.orchestrationInvoke,
                   SKEvent.runtimeGetResult, SKEvent.printReport,
                   SKEvent.storeMemory "report"]) := by
  refine ⟨Or.inl rfl,
    c7_orchestration_order.2.2.2 freshAgentSys "q" "rep" (Or.inl rfl), ?_⟩
  rw [c7_orchestration_order.2.2.1 "q" "rep"]
  rfl

/-- C9 as stated fails on the code: with the global agents dict
uninitialized and the request naming agent "agent1", the returned agents
field is the empty list, not the requested list, because the Python
conditional expression yields [] whenever the global dict is falsy. -/
theorem c9_claim_counterexample :
    (create_research_task none "tid" rtReqA).agents = [] ∧
    claimed_task_agents none rtReqA = ["agent1"] ∧
    (create_research_task none "tid" rtReqA).agents ≠ claimed_task_agents none rtReqA := by
  refine ⟨rfl, rfl, by decide⟩

/-- C9 amended: POST /api/v1/research persists nothing; every created
task has status "created" and progress 0.0; its agents field is [] when
the global agents dict is uninitialized or empty, and otherwise is the
requested agent list when that list is given and nonempty, else all keys
of the global agents dict; and GET /api/v1/research always answers
total = 0 with an empty tasks list. -/
theorem c9_amended_behavior (agents : Option (List (String × AgentObj)))
    (task_id : String) (req : ResearchTaskCreate)
    (page page_size : Nat) (statusF : Option String) :
    (create_research_task agents task_id req).status = "created" ∧
    (create_research_task agents task_id req).progress = 0 ∧
    ((agents = none ∨ agents = some []) →
       (create_research_task agents task_id req).agents = []) ∧
    (∀ ags l, agents = some ags → ags ≠ [] → req.agents = some l → l ≠ [] →
       (create_research_task agents task_id req).agents = l) ∧
    (∀ ags, agents = some ags → ags ≠ [] →
       (req.agents = none ∨ req.agents = some []) →
       (create_research_task agents task_id req).agents = ags.map Prod.fst) ∧
    list_research_tasks page page_size statusF =
      { tasks := [], total := 0, page := page, page_size := page_size } := by
  refine ⟨rfl, rfl, ?_, ?_, ?_, rfl⟩
  · rintro (h | h) <;> simp [create_research_task, h]
  · rintro ags l rfl hags hla hl
    simp [create_research_task, List.isEmpty_iff, hags, hla, hl]
  · rintro ags rfl hags (h | h) <;>
      simp [create_research_task, List.isEmpty_iff, hags, h]

/-- Witness for C9 amended: a concrete run with two agents installed and
one requested. -/
theorem c9_amended_behavior_witness :
    (some demoAgents = some demoAgents) ∧ demoAgents ≠ [] ∧
    rtReqA.agents = some ["agent1"] ∧ (["agent1"] : List String) ≠ [] ∧
    (create_research_task (some demoAgents) "tid" rtReqA).status = "created" ∧
    (create_research_task (some demoAgents) "tid" rtReqA).agents = ["agent1"] := by
  have h := c9_amended_behavior (some demoAgents) "tid" rtReqA 1 20 none
  exact ⟨rfl, by decide, rfl, by decide, h.1,
    h.2.2.2.1 demoAgents ["agent1"] rfl (by decide) rfl (by decide)⟩

/-- C10: every call through the track_response_time wrapper passes the
handler outcome through unchanged (result or re-raised exception) and
appends exactly one entry to the history, dropping the oldest entry when
the length would exceed 100, so the history never exceeds 100 entries;
and get_average_response_time answers 250.0 on an empty history and
otherwise the mean of the most recent at most 20 entries rounded to two
decimal places. -/
theorem c10_response_time_tracking :
    (∀ (h : List ℚ) (t : ℚ) (res : Except String Nat),
       (track_response_time h t res).1 = res ∧
       (h.length < 100 → (track_response_time h t res).2 = h ++ [t]) ∧
       (100 ≤ h.length → (track_response_time h t res).2 = (h ++ [t]).drop 1) ∧
       (h.length ≤ 100 → (track_response_time h t res).2.length ≤ 100)) ∧
    (∀ ts : List ℚ, (ts.foldl push_response_time []).length ≤ 100) ∧
    get_average_response_time [] = 250 ∧
    (∀ h : List ℚ, h ≠ [] →
       get_average_response_time h =
         round2 (ratSum (lastN 20 h) / ((lastN 20 h).length : ℚ)) ∧
       (lastN 20 h).length = min 20 h.length ∧
       lastN 20 h <:+ h) := by
  refine ⟨?_, ?_, rfl, ?_⟩
  · intro h t res
    have hp : (track_response_time h t res).2 = push_response_time h t := by
      cases res <;> rfl
    have hr : (track_response_time h t res).1 = res := by
      cases res <;> rfl
    have he : push_response_time h t =
        if 100 < (h ++ [t]).length then (h ++ [t]).drop 1 else h ++ [t] := rfl
    refine ⟨hr, ?_, ?_, fun hh => hp ▸ push_response_time_le h t hh⟩
    · intro hlt
      rw [hp, he, if_neg]
      simp only [List.length_append, List.length_cons, List.length_nil]
      omega
    · intro hge
      rw [hp, he, if_pos]
      simp only [List.length_append, List.length_cons, List.length_nil]
      omega
  · intro ts
    exact foldl_push_le ts [] (by simp)
  · intro h hne
    have hif : h.isEmpty = false := by
      simpa [List.isEmpty_iff] using hne
    refine ⟨by simp [get_average_response_time, hif], ?_, List.drop_suffix _ _⟩
    simp only [lastN, List.length_drop]
    omega

/-- Witness for C10: one tracked call on a singleton history, plus the
average of a short history. -/
theorem c10_response_time_tracking_witness :
    (([(1 : ℚ)]).length < 100 ∧ True) ∧
    (track_response_time [(1 : ℚ)] 2 (.ok (0 : Nat)) : Except String Nat × List ℚ).2
      = [(1 : ℚ), 2] ∧
    get_average_response_time [] = 250 ∧
    (lastN 20 [(3 : ℚ)]).length = min 20 ([(3 : ℚ)]).length := by
  refine ⟨⟨by decide, trivial⟩, ?_, c10_response_time_tracking.2.2.1, ?_⟩
  · exact (c10_response_time_tracking.1 [(1 : ℚ)] 2 (.ok 0)).2.1 (by decide)
  · exact ((c10_response_time_tracking.2.2.2 [(3 : ℚ)] (by simp)).2).1

end DeepResearchSpec
